import Mathlib

/-!
# Verification of the Erlang E1 channel calculation library

Shallow embedding of the three functions of `src/src/lib.rs`:
`erlang_b`, `calculate_e1_channels` and `required_e1_channels`.
The Rust code computes with `f64`; the embedding models that arithmetic
with exact rationals (`ℚ`), so every claim below is settled against the
exact-arithmetic reading of the algorithms.
-/

namespace ErlangE1

/-- The inverse Erlang-B accumulator of `erlang_b` in `src/src/lib.rs`:
`inverse_b` starts at `1.0` and the loop `for n in 1..=channels` performs
`inverse_b = 1.0 + inverse_b * (n as f64 / traffic)`. -/
def inverse_b (traffic : ℚ) : ℕ → ℚ
  | 0 => 1
  | n + 1 => 1 + inverse_b traffic n * ((n + 1 : ℚ) / traffic)

/-- `erlang_b` from `src/src/lib.rs`: runs the inverse recurrence up to
`channels` and returns `1.0 / inverse_b`. -/
def erlang_b (traffic : ℚ) (channels : ℕ) : ℚ :=
  1 / inverse_b traffic channels

/-- The `while channels < channels_max` loop of `calculate_e1_channels` in
`src/src/lib.rs`, with the loop variable `channels` as second argument and
the number of remaining iterations (`channels_max - channels`; the guard
`channels < channels_max` holds exactly that many more times) as first
argument: the body evaluates `erlang_b traffic channels`, returns
`some channels` when it is at or below `blocking_probability`, otherwise
increments `channels`; the loop exits with `none` when the guard fails. -/
def searchFrom (traffic blocking_probability : ℚ) :
    ℕ → ℕ → Option ℕ
  | 0, _ => none
  | fuel + 1, channels =>
    if erlang_b traffic channels ≤ blocking_probability then
      some channels
    else
      searchFrom traffic blocking_probability fuel (channels + 1)

/-- `calculate_e1_channels` from `src/src/lib.rs`: starts the search loop at
`channels = 1`, so the guard `channels < channels_max` admits exactly
`channels_max - 1` iterations. -/
def calculate_e1_channels (traffic blocking_probability : ℚ)
    (channels_max : ℕ) : Option ℕ :=
  searchFrom traffic blocking_probability (channels_max - 1) 1

/-- `required_e1_channels` from `src/src/lib.rs`: derives
`traffic = users * average_call_duration * concurrent_calls / 60.0` and
delegates to `calculate_e1_channels` with `channels_max = 10_000`. -/
def required_e1_channels (users : ℕ) (average_call_duration : ℚ)
    (concurrent_calls : ℕ) (blocking_probability : ℚ) : Option ℕ :=
  calculate_e1_channels
    ((users * average_call_duration * concurrent_calls) / 60)
    blocking_probability 10000

/-- The spec's wording of the recurrence (§4.1), written independently of
the source as a fold: `inv[0] = 1` and, for `n = 1` up to `channels`,
`inv[n] = 1 + inv[n-1] * (n / traffic)`. -/
def inv_rec_spec (traffic : ℚ) (channels : ℕ) : ℚ :=
  (List.range channels).foldl
    (fun acc n => 1 + acc * ((n + 1 : ℚ) / traffic)) 1

/-- Unfolding equation for `inverse_b` at a successor channel count. -/
theorem inverse_b_succ (t : ℚ) (n : ℕ) :
    inverse_b t (n + 1) = 1 + inverse_b t n * ((n + 1 : ℚ) / t) := rfl

/-- For positive traffic the inverse accumulator never drops below `1`. -/
theorem one_le_inverse_b (t : ℚ) (ht : 0 < t) : ∀ n, 1 ≤ inverse_b t n := by
  intro n
  induction n with
  | zero => simp [inverse_b]
  | succ n ih =>
    have hnn : 0 ≤ inverse_b t n * ((n + 1 : ℚ) / t) := by
      apply mul_nonneg (le_trans zero_le_one ih)
      positivity
    rw [inverse_b_succ]
    linarith

/-- For positive traffic the inverse accumulator is non-decreasing in the
channel count. -/
theorem inverse_b_le_succ (t : ℚ) (ht : 0 < t) :
    ∀ n, inverse_b t n ≤ inverse_b t (n + 1) := by
  intro n
  induction n with
  | zero =>
    have h : (0 : ℚ) ≤ 1 / t := by positivity
    rw [inverse_b_succ]
    simp [inverse_b]
    linarith
  | succ n ih =>
    have h0 : (0 : ℚ) ≤ inverse_b t n :=
      le_trans zero_le_one (one_le_inverse_b t ht n)
    have hb : (0 : ℚ) ≤ inverse_b t (n + 1) :=
      le_trans zero_le_one (one_le_inverse_b t ht (n + 1))
    have h1 : ((n : ℚ) + 1) / t ≤ ((n : ℚ) + 1 + 1) / t := by
      gcongr
      linarith
    have h2 : inverse_b t n * (((n : ℚ) + 1) / t) ≤
        inverse_b t (n + 1) * (((n : ℚ) + 1 + 1) / t) :=
      mul_le_mul ih h1 (by positivity) hb
    rw [inverse_b_succ t n, inverse_b_succ t (n + 1)]
    push_cast
    linarith

/-- Soundness of the search loop: a `some` result satisfies the threshold,
lies in the scanned window, and every earlier scanned count fails the
threshold. -/
theorem searchFrom_some_sound (t p : ℚ) :
    ∀ (fuel c n : ℕ), searchFrom t p fuel c = some n →
      erlang_b t n ≤ p ∧ c ≤ n ∧ n < c + fuel ∧
        ∀ k, c ≤ k → k < n → p < erlang_b t k := by
  intro fuel
  induction fuel with
  | zero => intro c n h; simp [searchFrom] at h
  | succ fuel ih =>
    intro c n h
    rw [searchFrom] at h
    by_cases hb : erlang_b t c ≤ p
    · rw [if_pos hb, Option.some.injEq] at h
      subst h
      exact ⟨hb, le_refl c, by omega, fun k hk1 hk2 => by omega⟩
    · rw [if_neg hb] at h
      obtain ⟨h1, h2, h3, h4⟩ := ih (c + 1) n h
      refine ⟨h1, by omega, by omega, fun k hk1 hk2 => ?_⟩
      by_cases hkc : k = c
      · subst hkc
        exact lt_of_not_le hb
      · exact h4 k (by omega) hk2

/-- Extra fuel never changes a `some` result of the search loop. -/
theorem searchFrom_fuel_mono (t p : ℚ) :
    ∀ (f1 f2 c n : ℕ), f1 ≤ f2 → searchFrom t p f1 c = some n →
      searchFrom t p f2 c = some n := by
  intro f1
  induction f1 with
  | zero => intro f2 c n _ h; simp [searchFrom] at h
  | succ f1 ih =>
    intro f2 c n h12 h
    obtain ⟨f2p, rfl⟩ : ∃ f2p, f2 = f2p + 1 := ⟨f2 - 1, by omega⟩
    rw [searchFrom] at h ⊢
    by_cases hb : erlang_b t c ≤ p
    · rw [if_pos hb] at h ⊢
      exact h
    · rw [if_neg hb] at h ⊢
      exact ih f2p (c + 1) n (by omega) h

/-- C1: the claim states that a solution at `n = channels_max` itself must be
found, but the loop guard `channels < channels_max` excludes that candidate:
at `traffic = 1`, `blocking_probability = 1/4`, `channels_max = 2` the
smallest satisfying count is `2` (since `erlang_b 1 2 = 1/5 ≤ 1/4` while
`erlang_b 1 1 = 1/2 > 1/4`), yet the function returns `none`. -/
theorem calculate_e1_channels_misses_upper_bound :
    calculate_e1_channels 1 (1/4) 2 = none ∧
      erlang_b 1 2 ≤ 1/4 ∧ (1/4 : ℚ) < erlang_b 1 1 := by
  refine ⟨?_, ?_, ?_⟩ <;>
    norm_num [calculate_e1_channels, searchFrom, erlang_b, inverse_b]

/-- C2: `erlang_b` equals the spec's inverse recurrence — `inv[0] = 1`,
`inv[n] = 1 + inv[n-1] * (n / traffic)` for `n = 1..channels`, result
`1 / inv[channels]` — for every traffic value and channel count. -/
theorem erlang_b_eq_spec_recurrence (traffic : ℚ) (channels : ℕ) :
    erlang_b traffic channels = 1 / inv_rec_spec traffic channels := by
  suffices h : inverse_b traffic channels = inv_rec_spec traffic channels by
    rw [erlang_b, h]
  induction channels with
  | zero => simp [inverse_b, inv_rec_spec]
  | succ c ih => simp [inverse_b, inv_rec_spec, List.range_succ, ih]

/-- C3: whenever `calculate_e1_channels` returns `some n`, the blocking
probability at `n` meets the target and every channel count `k` with
`1 ≤ k < n` fails it: the returned count is minimal. -/
theorem calculate_e1_channels_minimal (t p : ℚ) (m n : ℕ)
    (h : calculate_e1_channels t p m = some n) :
    erlang_b t n ≤ p ∧ ∀ k, 1 ≤ k → k < n → p < erlang_b t k := by
  obtain ⟨h1, _, _, h4⟩ := searchFrom_some_sound t p (m - 1) 1 n h
  exact ⟨h1, h4⟩

/-- Witness for C3 at `traffic = 1`, `blocking_probability = 1/2`,
`channels_max = 5`, where the search returns `some 1`. -/
theorem calculate_e1_channels_minimal_witness :
    erlang_b 1 1 ≤ 1/2 ∧ ∀ k, 1 ≤ k → k < 1 → (1/2 : ℚ) < erlang_b 1 k :=
  calculate_e1_channels_minimal 1 (1/2) 5 1 (by
    norm_num [calculate_e1_channels, searchFrom, erlang_b, inverse_b])

/-- C4: with zero channels the loop of `erlang_b` never runs and the result
is `1 / 1 = 1` for every positive traffic. -/
theorem erlang_b_zero_channels (traffic : ℚ) (ht : 0 < traffic) :
    erlang_b traffic 0 = 1 := by
  norm_num [erlang_b, inverse_b]

/-- Witness for C4 at `traffic = 1`. -/
theorem erlang_b_zero_channels_witness : erlang_b 1 0 = 1 :=
  erlang_b_zero_channels 1 (by norm_num)

/-- C5: for positive traffic and any channel count, `erlang_b` lies in the
closed unit interval. -/
theorem erlang_b_mem_unit_interval (traffic : ℚ) (channels : ℕ)
    (ht : 0 < traffic) :
    0 ≤ erlang_b traffic channels ∧ erlang_b traffic channels ≤ 1 := by
  have h1 := one_le_inverse_b traffic ht channels
  have h0 : 0 < inverse_b traffic channels := lt_of_lt_of_le one_pos h1
  simp only [erlang_b]
  exact ⟨le_of_lt (div_pos one_pos h0), (div_le_one h0).mpr h1⟩

/-- Witness for C5 at `traffic = 1`, `channels = 2`. -/
theorem erlang_b_mem_unit_interval_witness :
    0 ≤ erlang_b 1 2 ∧ erlang_b 1 2 ≤ 1 :=
  erlang_b_mem_unit_interval 1 2 (by norm_num)

/-- C6: for fixed positive traffic, `erlang_b` is non-increasing in the
channel count: each extra channel can only lower the blocking
probability. -/
theorem erlang_b_antitone_succ (traffic : ℚ) (n : ℕ) (ht : 0 < traffic) :
    erlang_b traffic (n + 1) ≤ erlang_b traffic n := by
  have h0 : 0 < inverse_b traffic n :=
    lt_of_lt_of_le one_pos (one_le_inverse_b traffic ht n)
  simp only [erlang_b]
  exact one_div_le_one_div_of_le h0 (inverse_b_le_succ traffic ht n)

/-- Witness for C6 at `traffic = 1`, `n = 1`. -/
theorem erlang_b_antitone_succ_witness : erlang_b 1 2 ≤ erlang_b 1 1 :=
  erlang_b_antitone_succ 1 1 (by norm_num)

/-- C7: enlarging `channels_max` never changes a result the search already
found within the smaller bound. -/
theorem calculate_e1_channels_stable (t p : ℚ) (m1 m2 n : ℕ)
    (h12 : m1 ≤ m2) (h : calculate_e1_channels t p m1 = some n) :
    calculate_e1_channels t p m2 = some n :=
  searchFrom_fuel_mono t p (m1 - 1) (m2 - 1) 1 n (by omega) h

/-- Witness for C7: the result `some 1` found with bound `5` persists with
bound `9`. -/
theorem calculate_e1_channels_stable_witness :
    calculate_e1_channels 1 (1/2) 9 = some 1 :=
  calculate_e1_channels_stable 1 (1/2) 5 9 1 (by norm_num) (by
    norm_num [calculate_e1_channels, searchFrom, erlang_b, inverse_b])

/-- C8: `required_e1_channels` derives
`traffic = users * average_call_duration * concurrent_calls / 60` and
delegates to `calculate_e1_channels` with `channels_max = 10000`. -/
theorem required_e1_channels_delegates (users : ℕ)
    (average_call_duration : ℚ) (concurrent_calls : ℕ)
    (blocking_probability : ℚ) :
    required_e1_channels users average_call_duration concurrent_calls
        blocking_probability =
      calculate_e1_channels
        ((users * average_call_duration * concurrent_calls) / 60)
        blocking_probability 10000 := rfl

/-- C10: with `channels_max ≤ 1` the guard `channels < channels_max` fails
at the initial `channels = 1`, so no candidate is evaluated and the result
is `none` for every traffic and every target, including a target of `1`. -/
theorem calculate_e1_channels_none_of_small_max (t p : ℚ) (m : ℕ)
    (hm : m ≤ 1) : calculate_e1_channels t p m = none := by
  have h0 : m - 1 = 0 := by omega
  rw [calculate_e1_channels, h0, searchFrom]

/-- Witness for C10 at `traffic = 1`, `blocking_probability = 1`,
`channels_max = 1`. -/
theorem calculate_e1_channels_none_of_small_max_witness :
    calculate_e1_channels 1 1 1 = none :=
  calculate_e1_channels_none_of_small_max 1 1 1 (le_refl 1)

end ErlangE1
